import Mathlib

/-!
Verification of the XDSM figure scripts
(`constraint_analysis_xdsm.py`, `weight_estimation_xdsm.py`).

The scripts are declarative call sequences against the Diagram Builder
(the `XDSM` class of the pyxdsm library).  Each script is embedded as a
trace of builder operations (`Op`), faithful to the source arguments:
identifiers, roles, label strings (LaTeX text, with `\` written `\\` and
braces written with `\x7b` / `\x7d` escapes), stacked and faded flags.
The builder itself is not part of this repository, so its operational
semantics (validation, error taxonomy, finalize) are modelled from the
specification's Diagram Builder contract.
-/

/-- Role of a System box: OPT / SOLVER / FUNC / IFUNC in the source. -/
inductive Role where
  | Optimizer
  | Solver
  | Function
  | ImplicitFunction
deriving DecidableEq, Repr

/-- A System node: id, role, display labels, stacked flag, faded flag. -/
structure SystemBox where
  id : String
  role : Role
  labels : List String
  stacked : Bool
  faded : Bool
deriving DecidableEq, Repr

/-- A directed Connection between two System ids with a label. -/
structure Connection where
  src : String
  tgt : String
  labels : List String
  stacked : Bool
deriving DecidableEq, Repr

/-- The declarative content of one Diagram. -/
structure Diagram where
  use_sfmath : Bool
  systems : List SystemBox
  connections : List Connection
  inputs : List (String × List String)
  outputs : List (String × List String)
  process : Option (List String)
deriving DecidableEq, Repr

/-- A fresh empty Diagram, as produced by `XDSM(use_sfmath=...)`. -/
def emptyDiagram (sf : Bool) : Diagram :=
  ⟨sf, [], [], [], [], none⟩

/-- The identifiers of the Systems declared so far. -/
def declaredIds (d : Diagram) : List String :=
  d.systems.map SystemBox.id

/-- Errors of the Diagram Builder contract. -/
inductive BuilderError where
  | DuplicateIdentifier
  | UnknownSystem
deriving DecidableEq, Repr

/-- One builder operation, as invoked by the scripts. -/
inductive Op where
  | addSystem (id : String) (role : Role) (labels : List String)
      (stacked : Bool) (faded : Bool)
  | connectOp (src : String) (tgt : String) (labels : List String)
      (stacked : Bool)
  | addInput (id : String) (labels : List String)
  | addOutput (id : String) (labels : List String)
  | addProcess (ids : List String)
deriving DecidableEq, Repr

/-- Modelled from the spec: `add_system` registers a System and fails with
`DuplicateIdentifier` if the id is already present; `connect` registers a
Connection and fails with `UnknownSystem` if either endpoint is
undeclared; `add_input` / `add_output` attach annotations to an existing
System and fail with `UnknownSystem` if the id is undeclared;
`add_process` records the execution-order overlay and fails with
`UnknownSystem` if any id is undeclared (a second call overwrites).
The `XDSM` class implementing these operations is external to the
repository. -/
def applyOp (d : Diagram) : Op → Except BuilderError Diagram
  | .addSystem i r ls st f =>
      if (declaredIds d).contains i then
        .error .DuplicateIdentifier
      else
        .ok ⟨d.use_sfmath, d.systems ++ [⟨i, r, ls, st, f⟩],
             d.connections, d.inputs, d.outputs, d.process⟩
  | .connectOp a b ls st =>
      if (declaredIds d).contains a && (declaredIds d).contains b then
        .ok ⟨d.use_sfmath, d.systems, d.connections ++ [⟨a, b, ls, st⟩],
             d.inputs, d.outputs, d.process⟩
      else
        .error .UnknownSystem
  | .addInput i ls =>
      if (declaredIds d).contains i then
        .ok ⟨d.use_sfmath, d.systems, d.connections,
             d.inputs ++ [(i, ls)], d.outputs, d.process⟩
      else
        .error .UnknownSystem
  | .addOutput i ls =>
      if (declaredIds d).contains i then
        .ok ⟨d.use_sfmath, d.systems, d.connections,
             d.inputs, d.outputs ++ [(i, ls)], d.process⟩
      else
        .error .UnknownSystem
  | .addProcess ids =>
      if ids.all (fun i => (declaredIds d).contains i) then
        .ok ⟨d.use_sfmath, d.systems, d.connections,
             d.inputs, d.outputs, some ids⟩
      else
        .error .UnknownSystem

/-- Modelled from the spec: a validation failure aborts the figure's
construction and leaves the Diagram exactly as it was. -/
def runOp (d : Diagram) (op : Op) : Diagram × Option BuilderError :=
  match applyOp d op with
  | .ok d2 => (d2, none)
  | .error e => (d, some e)

/-- Run a whole trace of builder operations on a fresh Diagram. -/
def buildDiagram (sf : Bool) (ops : List Op) : Except BuilderError Diagram :=
  ops.foldlM applyOp (emptyDiagram sf)

/-- Modelled from the spec: the `write` / finalize call with its
hard-coded per-script parameters. -/
structure WriteCall where
  figname : String
  build : Bool
  cleanup : Bool
  quiet : Bool
  outdir : String
deriving DecidableEq, Repr

/-- Modelled from the spec: the intermediate typeset source emitted by
finalize is a deterministic function of the Diagram's declarative
content (the actual LaTeX emission lives in the external renderer). -/
def emitSource (d : Diagram) : String :=
  String.intercalate "\n"
    (d.systems.map (fun s => "system " ++ s.id ++ " "
        ++ String.intercalate "," s.labels)
     ++ d.connections.map (fun c => "connect " ++ c.src ++ " " ++ c.tgt
        ++ " " ++ String.intercalate "," c.labels)
     ++ d.inputs.map (fun p => "input " ++ p.1 ++ " "
        ++ String.intercalate "," p.2)
     ++ d.outputs.map (fun p => "output " ++ p.1 ++ " "
        ++ String.intercalate "," p.2)
     ++ (match d.process with
         | none => []
         | some ids => ["process " ++ String.intercalate " " ids]))

/-- Modelled from the spec: finalize delegates to the external renderer,
writes the emitted source for the Diagram into the output directory, and
does not mutate the Diagram's declarative content. -/
def finalize (d : Diagram) (w : WriteCall) : Diagram × (String × String) :=
  (d, (w.outdir ++ "/" ++ w.figname, emitSource d))

/-- The builder-operation trace of `constraint_analysis_xdsm.py`. -/
def constraintOps : List Op :=
  [ .addSystem "opt" .Optimizer
      ["\\text\x7b($T/W$) and ($W/S$)\x7d", "\\text\x7bOptimization\x7d"]
      false false,
    .addSystem "aero" .Function
      ["\\text\x7bDrag\x7d", "\\text\x7bPolar\x7d"] false false,
    .addSystem "stall" .ImplicitFunction
      ["\\text\x7bStall Speed\x7d", "\\text\x7bConstraint\x7d"] false false,
    .addSystem "climb" .ImplicitFunction
      ["\\text\x7bClimb\x7d", "\\text\x7bConstraints\x7d"] true false,
    .addSystem "cruise" .ImplicitFunction
      ["\\text\x7bCruise\x7d", "\\text\x7bConstraint\x7d"] false false,
    .addSystem "others" .ImplicitFunction
      ["\\text\x7bOther Mission\x7d", "\\text\x7bConstraints\x7d"] true false,
    .connectOp "opt" "climb" ["(W/S)"] true,
    .connectOp "opt" "cruise" ["(W/S)"] false,
    .connectOp "opt" "others" ["(W/S)"] true,
    .connectOp "aero" "stall" ["C_\x7bD_0\x7d, k"] false,
    .connectOp "aero" "climb" ["C_\x7bD_0\x7d, k"] true,
    .connectOp "aero" "cruise" ["C_\x7bD_0\x7d, k"] false,
    .connectOp "aero" "others" ["C_\x7bD_0\x7d, k"] true,
    .connectOp "stall" "opt" ["(W/S)_\\text\x7bstall\x7d"] false,
    .connectOp "climb" "opt" ["(T/W)_\\text\x7bclimb\x7d"] true,
    .connectOp "cruise" "opt" ["(T/W)_\\text\x7bcruise\x7d"] false,
    .connectOp "others" "opt" ["(T/W)_\\text\x7bothers\x7d"] true,
    .addInput "opt" ["(T/W)_0, (W/S)_0"],
    .addInput "aero"
      ["c_f, S_\\text\x7bwet\x7d/S_\\text\x7bref\x7d",
       "AR, e, C_\x7bL_\x7b\\alpha=0\x7d\x7d"],
    .addInput "stall" ["C_\x7bL_\\text\x7bmax\x7d\x7d, V_\\text\x7bstall\x7d"],
    .addInput "climb" ["V_\x7bR/C\x7d"],
    .addInput "cruise" ["V_\\text\x7bcruise\x7d"],
    .addInput "others" ["\\mathbf\x7bV_\\text\x7bothers\x7d\x7d, ..."],
    .addOutput "opt" ["(T/W)^*, (W/S)^*"] ]

/-- The `x.write` call of `constraint_analysis_xdsm.py`. -/
def constraintWrite : WriteCall :=
  ⟨"ConstraintAnalysisXDSM", true, true, false, "."⟩

/-- One record of the `figure_sets` configuration list: the output
figure name and the four per-system faded flags. -/
structure FigureSet where
  figName : String
  f1 : Bool
  f2 : Bool
  f3 : Bool
  f4 : Bool
deriving DecidableEq, Repr

/-- The `figure_sets` list of `weight_estimation_xdsm.py`. -/
def figureSets : List FigureSet :=
  [ ⟨"WeightEstimationXDSM", false, false, false, false⟩,
    ⟨"MissionSegmentWeightXDSM", false, true, true, true⟩,
    ⟨"FuelWeightXDSM", true, false, true, true⟩,
    ⟨"TakeoffWeightXDSM", true, true, false, true⟩,
    ⟨"EmptyWeightXDSM", true, true, true, false⟩,
    ⟨"TakeoffEmptyWeightXDSM", true, true, false, false⟩ ]

/-- The argument of the single `x.add_process` call in
`weight_estimation_xdsm.py`. -/
def weightProcess : List String :=
  ["mission_segment", "fuel", "takeoff", "empty", "takeoff"]

/-- The builder-operation trace of one iteration of the
`weight_estimation_xdsm.py` loop, parametrized by the iteration's
configuration record. -/
def weightOps (fs : FigureSet) : List Op :=
  [ .addSystem "mission_segment" .Function
      ["\\text\x7bMission Segment\x7d", "\\text\x7bWeight Fraction\x7d"]
      true fs.f1,
    .addSystem "fuel" .Function
      ["\\text\x7bFuel Weight\x7d", "\\text\x7bEstimation\x7d"] false fs.f2,
    .addSystem "takeoff" .ImplicitFunction
      ["\\text\x7bTakeoff Weight \x7d", "\\text\x7bEstimation\x7d"] false fs.f3,
    .addSystem "empty" .Function
      ["\\text\x7bEmpty Weight\x7d", "\\text\x7bEstimation\x7d"] false fs.f4,
    .connectOp "takeoff" "empty" ["W_\\mathrm\x7bTO\x7d"] false,
    .connectOp "mission_segment" "fuel" ["WFs"] false,
    .connectOp "fuel" "takeoff" ["W_\\mathrm\x7bf\x7d/W_\\mathrm\x7bTO\x7d"] false,
    .connectOp "empty" "takeoff" ["W_\\mathrm\x7be\x7d/W_\\mathrm\x7bTO\x7d"] false,
    .addProcess weightProcess,
    .addInput "mission_segment" ["\\text\x7bMission Data\x7d"],
    .addInput "takeoff"
      ["W_\\text\x7bcrew\x7d, W_\\text\x7bpayload\x7d, W_\x7b\\mathrm\x7bTO\x7d_\\text\x7binit\x7d\x7d"],
    .addOutput "takeoff" ["W_\\mathrm\x7bTO\x7d^*"] ]

/-- One iteration of the weight-estimation loop: the fresh Diagram's
operation trace and the `x.write` call, both drawn solely from the
iteration's configuration record. -/
def weightIteration (fs : FigureSet) : List Op × WriteCall :=
  (weightOps fs, ⟨fs.figName, true, true, false, "."⟩)

/-- The identifiers passed to `add_system` in a trace. -/
def addSystemIds (ops : List Op) : List String :=
  ops.filterMap (fun o =>
    match o with
    | .addSystem i _ _ _ _ => some i
    | _ => none)

/-- Every identifier a trace references outside `add_system`:
connection endpoints, input/output targets, process entries. -/
def refTargets (ops : List Op) : List String :=
  ops.flatMap (fun o =>
    match o with
    | .addSystem _ _ _ _ _ => []
    | .connectOp a b _ _ => [a, b]
    | .addInput i _ => [i]
    | .addOutput i _ => [i]
    | .addProcess ids => ids)

/-- Referential closure of a trace: every referenced identifier is
declared by some `add_system` of the same trace. -/
def refClosedB (ops : List Op) : Bool :=
  (refTargets ops).all (fun i => (addSystemIds ops).contains i)

/-- The (src, tgt) pairs of the `connect` calls of a trace. -/
def connectPairs (ops : List Op) : List (String × String) :=
  ops.filterMap (fun o =>
    match o with
    | .connectOp a b _ _ => some (a, b)
    | _ => none)

/-- The consecutive pairs of the process sequences of a trace. -/
def processPairs (ops : List Op) : List (String × String) :=
  ops.flatMap (fun o =>
    match o with
    | .addProcess ids => ids.zip ids.tail
    | _ => [])

/-- The number of `add_process` calls in a trace. -/
def countAddProcess (ops : List Op) : Nat :=
  (ops.filter (fun o =>
    match o with
    | .addProcess _ => true
    | _ => false)).length

/-- Erase the faded flag of an operation (for comparing variants). -/
def stripFadedOp : Op → Op
  | .addSystem i r ls st _ => .addSystem i r ls st false
  | o => o

/-- The per-system faded flags of a trace, in declaration order. -/
def fadedFlags (ops : List Op) : List Bool :=
  ops.filterMap (fun o =>
    match o with
    | .addSystem _ _ _ _ f => some f
    | _ => none)

/-- The labels of the System with the given id, if declared. -/
def labelsOf (d : Diagram) (i : String) : Option (List String) :=
  (d.systems.find? (fun s => s.id == i)).map SystemBox.labels

/-- The Diagram after `add_system("a", Function, ["A"])` on a fresh
Diagram (the first call of the duplicate-declaration scenario). -/
def dupScenario : Diagram :=
  (runOp (emptyDiagram true) (.addSystem "a" .Function ["A"] false false)).1

/-- C1: in both scripts' traces, every `connect` endpoint, every
`add_input` / `add_output` target and every `add_process` entry names a
System declared by `add_system` on the same Diagram. -/
theorem referential_closure :
    refClosedB constraintOps = true ∧
    ∀ fs : FigureSet, refClosedB (weightOps fs) = true :=
  ⟨rfl, fun _ => rfl⟩

/-- C2: within each single Diagram built by either script, the
identifiers passed to `add_system` are pairwise distinct. -/
theorem add_system_ids_nodup :
    (addSystemIds constraintOps).Nodup ∧
    ∀ fs : FigureSet, (addSystemIds (weightOps fs)).Nodup :=
  ⟨by decide, fun _ => by
    show (["mission_segment", "fuel", "takeoff", "empty"] : List String).Nodup
    decide⟩

/-- C3 counterexample: in the weight-estimation script's process
sequence the last identifier does not repeat the first, so the claim
that the last identifier repeats the first to close the loop is false. -/
theorem process_last_ne_first :
    ¬ (weightProcess.head? = weightProcess.getLast?) := by
  decide

/-- C3 (amended): the Process recorded by `add_process` is an ordered
sequence of declared System identifiers denoting a cyclic execution
path in which the last identifier repeats an earlier identifier of the
sequence (the third, `takeoff`) — not the first — closing the inner
takeoff/empty loop. -/
theorem process_cyclic_amended :
    (∀ fs : FigureSet,
      (weightProcess.all
        (fun i => (addSystemIds (weightOps fs)).contains i)) = true) ∧
    weightProcess.getLast? = some "takeoff" ∧
    weightProcess[2]? = some "takeoff" ∧
    weightProcess.head? = some "mission_segment" :=
  ⟨fun _ => rfl, rfl, rfl, rfl⟩

/-- C4: each weight-estimation iteration is a pure function of its
configuration record: the traces of any two iterations agree once faded
flags are erased, while the four faded flags and the output figure name
come exactly from the record — so no state carries over between
iterations and the variants differ only in fading and name. -/
theorem weight_variants_differ_only_in_faded :
    (∀ fs1 fs2 : FigureSet,
      ((weightIteration fs1).1).map stripFadedOp
        = ((weightIteration fs2).1).map stripFadedOp) ∧
    (∀ fs : FigureSet,
      fadedFlags ((weightIteration fs).1) = [fs.f1, fs.f2, fs.f3, fs.f4] ∧
      ((weightIteration fs).2).figname = fs.figName) :=
  ⟨fun _ _ => rfl, fun _ => ⟨rfl, rfl⟩⟩

/-- C5: referencing an undeclared identifier in `connect` (as either
endpoint), `add_input`, `add_output` or `add_process` fails with
`UnknownSystem` and leaves the Diagram exactly as it was before the
failing call — in particular the declared-system set and the Connection
collection are unchanged. -/
theorem unknown_system_rejected (d : Diagram) (a b : String)
    (ls : List String) (st : Bool) (ids : List String)
    (ha : (declaredIds d).contains a = false) :
    runOp d (.connectOp a b ls st) = (d, some .UnknownSystem) ∧
    runOp d (.connectOp b a ls st) = (d, some .UnknownSystem) ∧
    runOp d (.addInput a ls) = (d, some .UnknownSystem) ∧
    runOp d (.addOutput a ls) = (d, some .UnknownSystem) ∧
    (a ∈ ids → runOp d (.addProcess ids) = (d, some .UnknownSystem)) := by
  have ha2 : a ∉ declaredIds d := by simpa using ha
  refine ⟨?_, ?_, ?_, ?_, ?_⟩
  · simp [runOp, applyOp, ha2]
  · simp [runOp, applyOp, ha2]
  · simp [runOp, applyOp, ha2]
  · simp [runOp, applyOp, ha2]
  · intro hmem
    have hall : ¬ (∀ x ∈ ids, x ∈ declaredIds d) := fun hx => ha2 (hx a hmem)
    simp [runOp, applyOp, hall]

/-- C5 witness: `connect("missing", "opt", "x")` on an otherwise empty
Diagram fails with `UnknownSystem` and the Diagram keeps an empty
Connection collection and an unchanged declared-system set. -/
theorem unknown_system_rejected_on_empty :
    (declaredIds (emptyDiagram true)).contains "missing" = false ∧
    runOp (emptyDiagram true) (.connectOp "missing" "opt" ["x"] false)
      = (emptyDiagram true, some .UnknownSystem) ∧
    (emptyDiagram true).connections = [] :=
  ⟨by decide,
   (unknown_system_rejected (emptyDiagram true) "missing" "opt" ["x"]
      false [] (by decide)).1,
   rfl⟩

/-- C6: re-declaring an existing System id fails with
`DuplicateIdentifier` and leaves the Diagram — hence the original
System's role, labels and flags — exactly as it was. -/
theorem duplicate_identifier_rejected (d : Diagram) (i : String)
    (r : Role) (ls : List String) (st f : Bool)
    (h : (declaredIds d).contains i = true) :
    runOp d (.addSystem i r ls st f) = (d, some .DuplicateIdentifier) := by
  have h2 : i ∈ declaredIds d := by simpa using h
  simp [runOp, applyOp, h2]

/-- C6 witness: after `add_system("a", Function, ["A"])`, a second
`add_system("a", Function, ["B"])` fails with `DuplicateIdentifier` and
System `a` still has labels `["A"]`. -/
theorem duplicate_identifier_scenario :
    runOp dupScenario (.addSystem "a" .Function ["B"] false false)
      = (dupScenario, some .DuplicateIdentifier) ∧
    labelsOf dupScenario "a" = some ["A"] :=
  ⟨duplicate_identifier_rejected dupScenario "a" .Function ["B"]
      false false (by decide),
   by decide⟩

/-- C7: finalize is idempotent with respect to the Diagram's
declarative content: it does not mutate the Diagram, and a second call
with the same write parameters emits byte-identical intermediate source
output. -/
theorem finalize_idempotent (d : Diagram) (w : WriteCall) :
    (finalize d w).1 = d ∧
    finalize (finalize d w).1 w = finalize d w ∧
    (finalize (finalize d w).1 w).2.2 = emitSource d :=
  ⟨rfl, rfl, rfl⟩

/-- C8: the constraint-analysis trace contains no `add_process` call
and every weight-estimation iteration's trace contains exactly one, so
no Diagram ever receives a second `add_process` call. -/
theorem at_most_one_process :
    countAddProcess constraintOps = 0 ∧
    ∀ fs : FigureSet, countAddProcess (weightOps fs) = 1 :=
  ⟨rfl, fun _ => rfl⟩

/-- C9: every consecutive pair of identifiers of the weight-estimation
process sequence is a (src, tgt) pair of some `connect` call of the
same trace, so the process overlay traverses only declared
data-dependency edges. -/
theorem process_pairs_are_connections :
    ∀ fs : FigureSet,
      (processPairs (weightOps fs)).all
        (fun p => (connectPairs (weightOps fs)).contains p) = true :=
  fun _ => rfl

/-- C10: the six figure names of `figure_sets` are pairwise distinct
and all six write calls target the same output directory, so each
iteration writes its own distinct file set there. -/
theorem figure_names_distinct :
    (figureSets.map FigureSet.figName).Nodup ∧
    (figureSets.all
      (fun fs => (weightIteration fs).2.outdir == ".")) = true := by
  constructor
  · decide
  · decide
